import Mathlib

/-!
Verification of the ticketninja back-end core (src/back-end/server.js).

The development shallow-embeds the JavaScript of the events router into Lean:
JavaScript values are modelled by the inductive type Json (with explicit
undefined, null and NaN), property access, optional chaining, truthiness,
nullish coalescing and number/string coercions are modelled by small total
functions, and code that can raise a TypeError is modelled in the
Except Unit monad.  JS numbers are modelled as exact rationals (NaN as a
separate marker); string primitives (trim, toLowerCase, includes) are
re-implemented over character lists with JavaScript semantics for the
ASCII payloads considered here.
-/

/-- Model of a JavaScript runtime value as produced by JSON parsing plus the
two extra values the router manipulates: undefined (absent properties,
optional-chaining misses) and NaN (failed numeric coercions). -/
inductive Json where
  | undefined : Json
  | null : Json
  | bool (b : Bool) : Json
  | num (q : Rat) : Json
  | nan : Json
  | str (s : String) : Json
  | arr (xs : List Json) : Json
  | obj (fs : List (String × Json)) : Json
deriving Repr

mutual

/-- Structural equality on the value model.  On primitives this agrees with
the SameValueZero comparison used by the JavaScript Set (including
NaN = NaN); object/array identity (reference equality) is approximated by
structural equality, which is the only point where the model is coarser
than the runtime. -/
def Json.beq : Json → Json → Bool
  | .undefined, .undefined => true
  | .null, .null => true
  | .bool a, .bool b => a == b
  | .num a, .num b => a == b
  | .nan, .nan => true
  | .str a, .str b => a == b
  | .arr a, .arr b => Json.beqList a b
  | .obj a, .obj b => Json.beqFields a b
  | _, _ => false

def Json.beqList : List Json → List Json → Bool
  | [], [] => true
  | a :: as, b :: bs => Json.beq a b && Json.beqList as bs
  | _, _ => false

def Json.beqFields : List (String × Json) → List (String × Json) → Bool
  | [], [] => true
  | (k, v) :: as, (k2, v2) :: bs => k == k2 && Json.beq v v2 && Json.beqFields as bs
  | _, _ => false

end

/-- JavaScript truthiness: undefined, null, false, 0, NaN and the empty
string are falsy; every other value (including all objects and arrays) is
truthy. -/
def jsTruthy : Json → Bool
  | .undefined => false
  | .null => false
  | .bool b => b
  | .num q => !(q == 0)
  | .nan => false
  | .str s => !(s == "")
  | .arr _ => true
  | .obj _ => true

/-- Nullish values are exactly undefined and null (the values the ?? operator
and optional chaining react to). -/
def jsNullish : Json → Bool
  | .undefined => true
  | .null => true
  | _ => false

def jsIsUndefined : Json → Bool
  | .undefined => true
  | _ => false

/-- First binding of a key in an object literal (JavaScript objects keep the
first-listed property; the payloads considered never repeat keys). -/
def jsObjFind : List (String × Json) → String → Option Json
  | [], _ => none
  | (k, v) :: rest, key => if k == key then some v else jsObjFind rest key

/-- Plain property access a.k: throws a TypeError when the receiver is
nullish, yields undefined for a missing key or a primitive receiver. -/
def jsGet (j : Json) (k : String) : Except Unit Json :=
  match j with
  | .undefined => .error ()
  | .null => .error ()
  | .obj fs => .ok ((jsObjFind fs k).getD .undefined)
  | _ => .ok .undefined

/-- Optional-chaining access a?.k: like jsGet but a nullish receiver yields
undefined instead of throwing. -/
def jsOptGet (j : Json) (k : String) : Json :=
  match j with
  | .undefined => .undefined
  | .null => .undefined
  | .obj fs => (jsObjFind fs k).getD .undefined
  | _ => .undefined

/-- Optional-chaining index access a?.[i] for the array receivers the router
indexes; nullish receivers and out-of-range indices yield undefined. -/
def jsOptIdx (j : Json) (i : Nat) : Json :=
  match j with
  | .arr xs => xs.getD i .undefined
  | _ => .undefined

/-- Nullish coalescing a ?? b. -/
def jsCoalesce (a b : Json) : Json :=
  if jsNullish a then b else a

/-- Logical OR a || b (value-returning, by truthiness). -/
def jsOr (a b : Json) : Json :=
  if jsTruthy a then a else b

/-! JavaScript string primitives, re-implemented over character lists.  The
payloads in scope are ASCII, for which these agree with the runtime. -/

def jsToLower (s : String) : String :=
  String.mk (s.data.map Char.toLower)

def jsIsPrefixList : List Char → List Char → Bool
  | [], _ => true
  | _ :: _, [] => false
  | c :: cs, d :: ds => c == d && jsIsPrefixList cs ds

def jsIncludesAux : List Char → List Char → Bool
  | s, sub =>
    if jsIsPrefixList sub s then true
    else match s with
      | [] => false
      | _ :: rest => jsIncludesAux rest sub

/-- JavaScript String.prototype.includes. -/
def jsIncludes (s sub : String) : Bool :=
  jsIncludesAux s.data sub.data

/-- JavaScript String.prototype.trim (ASCII whitespace). -/
def jsTrim (s : String) : String :=
  String.mk (((s.data.dropWhile Char.isWhitespace).reverse.dropWhile Char.isWhitespace).reverse)

/-! Numeric coercions.  A JS number is modelled as Option Rat with none
playing the role of NaN. -/

def natOfDigits (ds : List Char) : Nat :=
  ds.foldl (fun acc c => 10 * acc + (c.toNat - 48)) 0

/-- Parse a maximal run of decimal digits: value, digit count, rest. -/
def parseDigits (cs : List Char) : Option (Nat × Nat × List Char) :=
  let ds := cs.takeWhile Char.isDigit
  if ds.isEmpty then none
  else some (natOfDigits ds, ds.length, cs.dropWhile Char.isDigit)

/-- Parse an unsigned decimal core: digits, digits.digits?, or .digits. -/
def parseDecCore (cs : List Char) : Option (Rat × List Char) :=
  match cs with
  | '.' :: rest =>
    match parseDigits rest with
    | some (f, fl, rest2) => some ((f : Rat) / (10 : Rat) ^ fl, rest2)
    | none => none
  | _ =>
    match parseDigits cs with
    | some (n, _, rest) =>
      match rest with
      | '.' :: rest2 =>
        let fds := rest2.takeWhile Char.isDigit
        some ((n : Rat) + (natOfDigits fds : Rat) / (10 : Rat) ^ fds.length,
              rest2.dropWhile Char.isDigit)
      | _ => some ((n : Rat), rest)
    | none => none

def parseSignedNat (cs : List Char) : Option (Int × List Char) :=
  match cs with
  | '+' :: r => (parseDigits r).map (fun p => ((p.1 : Int), p.2.2))
  | '-' :: r => (parseDigits r).map (fun p => (-(p.1 : Int), p.2.2))
  | _ => (parseDigits cs).map (fun p => ((p.1 : Int), p.2.2))

/-- Optional exponent part; consumed only when well-formed, as in the
longest-valid-literal rule of parseFloat. -/
def parseExpPart (cs : List Char) : Option (Int × List Char) :=
  match cs with
  | 'e' :: rest => parseSignedNat rest
  | 'E' :: rest => parseSignedNat rest
  | _ => none

def parseDecimalLit (cs : List Char) : Option (Rat × List Char) :=
  match parseDecCore cs with
  | none => none
  | some (v, rest) =>
    match parseExpPart rest with
    | some (e, rest2) => some (v * (10 : Rat) ^ e, rest2)
    | none => some (v, rest)

def parseSignedDecimal (cs : List Char) : Option (Rat × List Char) :=
  match cs with
  | '+' :: r => parseDecimalLit r
  | '-' :: r => (parseDecimalLit r).map (fun p => (-p.1, p.2))
  | _ => parseDecimalLit cs

/-- JavaScript ToNumber on strings: whitespace-trimmed, empty means 0, a
full decimal literal parses exactly, anything else is NaN.  Hexadecimal and
Infinity literals are not modelled (they coerce to NaN here). -/
def strToNumber (s : String) : Option Rat :=
  let t := jsTrim s
  if t == "" then some 0
  else match parseSignedDecimal t.data with
    | some (q, []) => some q
    | _ => none

/-- JavaScript parseFloat: skip leading whitespace, read the longest valid
decimal prefix, NaN when there is none. -/
def jsParseFloat (s : String) : Option Rat :=
  match parseSignedDecimal (s.data.dropWhile Char.isWhitespace) with
  | some (q, _) => some q
  | none => none

/-- JavaScript ToNumber.  Arrays and objects coerce through ToPrimitive,
which is not modelled (the router never coerces them); they are mapped to
NaN here. -/
def toNumber : Json → Option Rat
  | .undefined => none
  | .null => some 0
  | .bool b => some (if b then 1 else 0)
  | .num q => some q
  | .nan => none
  | .str s => strToNumber s
  | .arr _ => none
  | .obj _ => none

def numSub (a b : Option Rat) : Option Rat :=
  match a, b with
  | some x, some y => some (x - y)
  | _, _ => none

def numAbs (a : Option Rat) : Option Rat :=
  a.map (fun q => |q|)

/-- Render a rational exactly in decimal when its denominator divides a
power of ten (the only case the router can print); minimal-length digits,
so there are no trailing zeros, matching the JS shortest form for these
values. -/
def pow10Denom (den : Nat) : Option Nat :=
  (List.range 41).find? (fun k => 10 ^ k % den == 0)

def padZeros (s : String) (k : Nat) : String :=
  if s.length < k then String.mk (List.replicate (k - s.length) '0') ++ s else s

def ratDecimalString (q : Rat) : String :=
  if q.den == 1 then toString q.num
  else match pow10Denom q.den with
    | some k =>
      let scaled := q.num.natAbs * (10 ^ k / q.den)
      (if q.num < 0 then "-" else "") ++ toString (scaled / 10 ^ k) ++ "." ++
        padZeros (toString (scaled % 10 ^ k)) k
    | none => toString q.num ++ "/" ++ toString q.den

/-- JavaScript String() conversion of the values the router interpolates or
joins.  Array join-conversion is not modelled (no claim exercises it). -/
def jsToString : Json → String
  | .undefined => "undefined"
  | .null => "null"
  | .nan => "NaN"
  | .bool true => "true"
  | .bool false => "false"
  | .num q => ratDecimalString q
  | .str s => s
  | .arr _ => ""
  | .obj _ => "[object Object]"

def fixed2Nat (m : Nat) : String :=
  toString (m / 100) ++ "." ++ padZeros (toString (m % 100)) 2

/-- Number.prototype.toFixed(2): round to the nearest hundredth, ties to the
larger value. -/
def fixed2 (q : Rat) : String :=
  let n : Int := Rat.floor (q * 100 + 1 / 2)
  if n < 0 then "-" ++ fixed2Nat (-n).toNat else fixed2Nat n.toNat

def jsToFixed2 (x : Option Rat) : String :=
  match x with
  | none => "NaN"
  | some q => fixed2 q

/-! Stable sort used to model Array.prototype.sort.  The ECMAScript sort is
stable; for a comparator that is consistent with a key (as in pickImage,
where the comparator subtracts the two keys) the result is the stable sort
by that key, realised here as insertion sort.  keyLE returns true exactly
when the comparator result (keyA - keyB, with NaN coerced to +0) is <= 0,
i.e. when a may stay in front of b. -/

def keyLE (a b : Option Rat) : Bool :=
  match a, b with
  | some x, some y => decide (x ≤ y)
  | _, _ => true

def sortInsert (le : α → α → Bool) (x : α) : List α → List α
  | [] => [x]
  | y :: ys => if le x y then x :: y :: ys else y :: sortInsert le x ys

def sortK (le : α → α → Bool) : List α → List α
  | [] => []
  | x :: xs => sortInsert le x (sortK le xs)

def pairKeyLE (p q : Json × Option Rat) : Bool :=
  keyLE p.2 q.2

/-- Comparator key of one image element: Math.abs(a.width - a.height),
with ToNumber coercion of the two properties.  Plain property access, so a
null element makes the comparator throw. -/
def imgSortKey (e : Json) : Except Unit (Json × Option Rat) := do
  let w ← jsGet e "width"
  let h ← jsGet e "height"
  .ok (e, numAbs (numSub (toNumber w) (toNumber h)))

/-- Embedding of pickImage (server.js lines 67-72):
if (!Array.isArray(images) || images.length === 0) return '';
const sorted = [...images].sort((a, b) =>
  Math.abs(a.width - a.height) - Math.abs(b.width - b.height));
return (sorted[0]?.url) || images[0].url || '';
The ECMAScript sort moves undefined elements to the end without invoking
the comparator and calls the comparator only on defined elements; with two
or more defined elements every one of them is compared at least once, so a
throwing key access is modelled by computing all keys up front. -/
def pickImage (images : Json) : Except Unit Json :=
  match images with
  | .arr [] => .ok (.str "")
  | .arr (i :: rest) => do
    let defined := (i :: rest).filter (fun e => !(jsIsUndefined e))
    let undefElems := (i :: rest).filter (fun e => jsIsUndefined e)
    let sortedDefined ←
      if defined.length ≤ 1 then .ok defined
      else do
        let keyed ← defined.mapM imgSortKey
        .ok ((sortK pairKeyLE keyed).map Prod.fst)
    let sorted := sortedDefined ++ undefElems
    let c := jsOptGet (sorted.headD .undefined) "url"
    if jsTruthy c then .ok c
    else do
      let u ← jsGet ((i :: rest).headD .undefined) "url"
      .ok (if jsTruthy u then u else .str "")
  | _ => .ok (.str "")

/-- Embedding of pickGenre (server.js lines 74-79): from the first
classification, join the truthy segment/genre/subGenre names with " | ". -/
def pickGenre (classifications : Json) : String :=
  match classifications with
  | .arr [] => ""
  | .arr (c :: _) =>
    let parts := [jsOptGet (jsOptGet c "segment") "name",
                  jsOptGet (jsOptGet c "genre") "name",
                  jsOptGet (jsOptGet c "subGenre") "name"].filter jsTruthy
    String.intercalate " | " (parts.map jsToString)
  | _ => ""

/-- Embedding of ticketStatusColor (server.js lines 81-91).  The receiver of
 .toLowerCase() is (code || ''); a truthy non-string code makes the call
throw, hence the Except result. -/
def ticketStatusColor (code : Json) : Except Unit String :=
  match jsOr code (.str "") with
  | .str s =>
    let c := jsToLower s
    .ok (if jsIncludes c "onsale" then "green"
      else if jsIncludes c "offsale" then "red"
      else if jsIncludes c "cancel" then "black"
      else if jsIncludes c "postpon" then "orange"
      else if jsIncludes c "resched" then "orange"
      else "gray")
  | _ => .error ()

/-- Embedding of fullAddress (server.js lines 199-208): venue name, address
line 1, "city, stateCode" and postal code, truthy parts joined with ", ". -/
def fullAddress (venue : Json) : String :=
  if !(jsTruthy venue) then ""
  else
    let inner := String.intercalate ", "
      (([jsOptGet (jsOptGet venue "city") "name",
         jsOptGet (jsOptGet venue "state") "stateCode"].filter jsTruthy).map jsToString)
    let parts := [jsOptGet venue "name",
                  jsOptGet (jsOptGet venue "address") "line1",
                  .str inner,
                  jsOptGet venue "postalCode"].filter jsTruthy
    String.intercalate ", " (parts.map jsToString)

/-- Embedding of formatPriceRange (server.js lines 210-219).  min/max are
formatted with toFixed(2) when non-nullish; toFixed never returns an empty
string, so the min && max truthiness test is the some/none distinction. -/
def formatPriceRange (ranges : Json) : String :=
  match ranges with
  | .arr [] => ""
  | .arr (r :: _) =>
    let minS : Option String :=
      if jsNullish (jsOptGet r "min") then none
      else some (jsToFixed2 (toNumber (jsOptGet r "min")))
    let maxS : Option String :=
      if jsNullish (jsOptGet r "max") then none
      else some (jsToFixed2 (toNumber (jsOptGet r "max")))
    match minS, maxS with
    | some m, some M => "$" ++ m ++ " ~ $" ++ M
    | some m, none => "From $" ++ m
    | none, some M => "Up to $" ++ M
    | none, none => ""
  | _ => ""

/-- Embedding of normEventRow (server.js lines 56-65).  e.id and e.name are
plain accesses (they throw on a nullish e); the rest are optional chains
with ?? defaults. -/
def normEventRow (e : Json) : Except Unit Json := do
  let idv ← jsGet e "id"
  let namev ← jsGet e "name"
  let imgv ← pickImage (jsOptGet e "images")
  .ok (.obj [
    ("id", idv),
    ("name", jsCoalesce namev (.str "")),
    ("dateLocal", jsCoalesce (jsOptGet (jsOptGet (jsOptGet e "dates") "start") "localDate")
        (.str "")),
    ("imageUrl", imgv),
    ("genre", .str (pickGenre (jsOptGet e "classifications"))),
    ("venue", jsCoalesce
        (jsOptGet (jsOptIdx (jsOptGet (jsOptGet e "_embedded") "venues") 0) "name")
        (.str ""))])

/-- Embedding of the details object built by GET /event/:id (server.js lines
136-150).  artists maps every embedded attraction through plain name/url
accesses and then slices to 5; a truthy non-array attractions value makes
 .map throw. -/
def detailsOf (e : Json) : Except Unit Json := do
  let idv ← jsGet e "id"
  let namev ← jsGet e "name"
  let artists ←
    match jsOr (jsOptGet (jsOptGet e "_embedded") "attractions") (.arr []) with
    | .arr xs => do
      let mapped ← xs.mapM (fun a => do
        let n ← jsGet a "name"
        let u ← jsGet a "url"
        .ok (Json.obj [("name", n), ("url", u)]))
      .ok (Json.arr (mapped.take 5))
    | _ => .error ()
  let color ← ticketStatusColor (jsOptGet (jsOptGet (jsOptGet e "dates") "status") "code")
  .ok (.obj [
    ("id", idv),
    ("name", jsCoalesce namev (.str "")),
    ("dateLocal", jsCoalesce (jsOptGet (jsOptGet (jsOptGet e "dates") "start") "localDate")
        (.str "")),
    ("timeLocal", jsCoalesce (jsOptGet (jsOptGet (jsOptGet e "dates") "start") "localTime")
        (.str "")),
    ("artists", artists),
    ("venue", jsCoalesce
        (jsOptGet (jsOptIdx (jsOptGet (jsOptGet e "_embedded") "venues") 0) "name")
        (.str "")),
    ("address", .str (fullAddress (jsOptIdx (jsOptGet (jsOptGet e "_embedded") "venues") 0))),
    ("ticketStatus", jsCoalesce (jsOptGet (jsOptGet (jsOptGet e "dates") "status") "code")
        (.str "")),
    ("ticketStatusColor", .str color),
    ("buyTicketAt", jsCoalesce (jsOptGet e "url") (.str "")),
    ("seatmap", jsCoalesce (jsOptGet (jsOptGet e "seatmap") "staticUrl") (.str "")),
    ("priceRange", .str (formatPriceRange (jsOptGet e "priceRanges"))),
    ("genre", .str (pickGenre (jsOptGet e "classifications")))])

/-- Embedding of the search-result normalization (server.js line 120):
(j?._embedded?.events || []).map(normEventRow).  A truthy non-array events
value has no .map method, so the call throws. -/
def normalizeSearchResults (j : Json) : Except Unit Json :=
  match jsOr (jsOptGet (jsOptGet j "_embedded") "events") (.arr []) with
  | .arr xs => (xs.mapM normEventRow).map Json.arr
  | _ => .error ()

/-- First-occurrence deduplication as performed by spreading a JS Set built
by insertion order. -/
def jsSetDedupAux : List Json → List Json → List Json
  | [], _ => []
  | x :: xs, seen =>
    if seen.any (fun y => Json.beq x y) then jsSetDedupAux xs seen
    else x :: jsSetDedupAux xs (x :: seen)

def jsSetDedup (l : List Json) : List Json :=
  jsSetDedupAux l []

/-- Destructuring with a default, const { k = [] } = emb: the default [] is
used only when the property is undefined (not when it is null). -/
def jsDestructArr (emb : Json) (k : String) : Json :=
  let v := jsOptGet emb k
  if jsIsUndefined v then .arr [] else v

/-- forEach(x => suggestions.push(x.name)) over one category list: throws
when the value is not an array (forEach is not a function) or when an
element is nullish (plain .name access). -/
def jsForEachName (v : Json) : Except Unit (List Json) :=
  match v with
  | .arr xs => xs.mapM (fun a => jsGet a "name")
  | _ => .error ()

/-- Embedding of the suggest normalization (server.js lines 231-241):
plain j._embedded access, destructuring defaults, three forEach pushes in
attraction/venue/event order, Set deduplication, slice(0, 10). -/
def suggestRespond (j : Json) : Except Unit Json := do
  let emb ← jsGet j "_embedded"
  let suggestions ←
    if jsTruthy emb then do
      let a ← jsForEachName (jsDestructArr emb "attractions")
      let b ← jsForEachName (jsDestructArr emb "venues")
      let c ← jsForEachName (jsDestructArr emb "events")
      .ok (a ++ b ++ c)
    else .ok ([] : List Json)
  .ok (.arr ((jsSetDedup suggestions).take 10))

/-- Embedding of the venue normalization (server.js lines 175-192), applied
after a successful upstream response.  v is j?._embedded?.venues?.[0]; a
falsy v answers null, otherwise the VenueInfo object is built.  Inside the
build every access is guarded (v is truthy, the coordinate accesses are
guarded by the truthiness tests), so this stage never throws. -/
def venueRespond (j : Json) : Json :=
  let v := jsOptIdx (jsOptGet (jsOptGet j "_embedded") "venues") 0
  if !(jsTruthy v) then .null
  else
    let latRaw := jsOptGet (jsOptGet v "location") "latitude"
    let lngRaw := jsOptGet (jsOptGet v "location") "longitude"
    .obj [
      ("name", jsCoalesce (jsOptGet v "name") (.str "")),
      ("address", .str (fullAddress v)),
      ("location", .obj [
        ("lat", if jsTruthy latRaw then
            (match toNumber latRaw with | some q => Json.num q | none => Json.nan)
          else .null),
        ("lng", if jsTruthy lngRaw then
            (match toNumber lngRaw with | some q => Json.num q | none => Json.nan)
          else .null)]),
      ("googleMapsUrl", if jsTruthy latRaw && jsTruthy lngRaw then
          .str ("https://www.google.com/maps/search/?api=1&query=" ++
            jsToString latRaw ++ "," ++ jsToString lngRaw)
        else .null),
      ("tmUrl", jsCoalesce (jsOptGet v "url") .null)]

/-! Location encoding and the route handlers. -/

def geohashBase32 : List Char :=
  "0123456789bcdefghjkmnpqrstuvwxyz".data

/-- Comparison used per geohash bit; a NaN coordinate never exceeds the
midpoint, so it yields all-zero bits for its dimension. -/
def geoGT (x : Option Rat) (mid : Rat) : Bool :=
  match x with
  | some v => decide (mid < v)
  | none => false

/-- Modelled from the spec: the Location Encoder of section 4.2 (the standard
interleaved binary-subdivision base-32 geohash).  The repository delegates
this to the ngeohash library, whose source is not under src/; the claims
about it concern only the call site (parseFloat conversion, precision 7). -/
def geohashBits (lat lng : Option Rat) :
    Nat → Rat × Rat → Rat × Rat → Bool → List Bool
  | 0, _, _, _ => []
  | n + 1, (latLo, latHi), (lngLo, lngHi), evenBit =>
    if evenBit then
      let mid := (lngHi + lngLo) / 2
      if geoGT lng mid then
        true :: geohashBits lat lng n (latLo, latHi) (mid, lngHi) false
      else
        false :: geohashBits lat lng n (latLo, latHi) (lngLo, mid) false
    else
      let mid := (latHi + latLo) / 2
      if geoGT lat mid then
        true :: geohashBits lat lng n (mid, latHi) (lngLo, lngHi) true
      else
        false :: geohashBits lat lng n (latLo, mid) (lngLo, lngHi) true

def bit5Val (b1 b2 b3 b4 b5 : Bool) : Nat :=
  16 * b1.toNat + 8 * b2.toNat + 4 * b3.toNat + 2 * b4.toNat + b5.toNat

def charsOfBits : List Bool → List Char
  | b1 :: b2 :: b3 :: b4 :: b5 :: rest =>
    geohashBase32.getD (bit5Val b1 b2 b3 b4 b5) '0' :: charsOfBits rest
  | _ => []

/-- Modelled from the spec: ngeohash.encode over the exact-rational number
model; 5 bits per output character, longitude first. -/
def ngeohashEncode (lat lng : Option Rat) (precision : Nat) : String :=
  String.mk (charsOfBits (geohashBits lat lng (precision * 5) (-90, 90) (-180, 180) true))

/-- Embedding of SEGMENT_IDS (server.js lines 47-53). -/
def SEGMENT_IDS (label : String) : Option String :=
  if label == "Music" then some "KZFzniwnSyZfZ7v7nJ"
  else if label == "Sports" then some "KZFzniwnSyZfZ7v7nE"
  else if label == "Arts & Theatre" then some "KZFzniwnSyZfZ7v7na"
  else if label == "Film" then some "KZFzniwnSyZfZ7v7nn"
  else if label == "Miscellaneous" then some "KZFzniwnSyZfZ7v7n1"
  else none

/-- Upstream response as seen by the router: HTTP status plus the result of
r.json(), which is an error when the body is malformed. -/
structure TMResponse where
  status : Nat
  body : Except Unit Json
deriving Repr

/-- fetch(url) outcome: error models a network-level rejection. -/
def FetchOutcome : Type := Except Unit TMResponse

/-- Response.ok is true exactly for 2xx statuses. -/
def respOk (r : TMResponse) : Bool :=
  200 ≤ r.status && r.status ≤ 299

/-- What a route handler answers: res.status(s).json(body) (res.json(b) has
status 200), or a generic failure passed to next(err), which the excluded
error middleware turns into a 500. -/
inductive ApiResult where
  | json (status : Nat) (body : Json) : ApiResult
  | error : ApiResult
deriving Repr

/-- Query parameters of GET /api/search; absent parameters are none (express
yields undefined for them, picked up by the destructuring defaults). -/
structure SearchQuery where
  keyword : Option String
  distance : Option String
  category : Option String
  lat : Option String
  lng : Option String

/-- Outbound search parameters assembled by the route (the static apikey is
configuration and not modelled). -/
structure SearchParams where
  keyword : String
  radius : String
  unit : String
  geoPoint : String
  segmentId : Option String
deriving Repr

structure SearchHandled where
  result : ApiResult
  fetchCalled : Bool
  request : Option SearchParams

structure Handled where
  result : ApiResult
  fetchCalled : Bool

/-- Embedding of GET /api/search (server.js lines 96-125): destructuring
defaults, the two validation gates, geohash at precision 7 over parseFloat
of the raw coordinate strings, radius defaulting, segment lookup, then one
fetch whose failure modes all funnel into next(err). -/
def searchHandler (q : SearchQuery) (f : FetchOutcome) : SearchHandled :=
  let keyword := q.keyword.getD ""
  let distance := q.distance.getD "10"
  let category := q.category.getD "Default"
  if keyword == "" then
    ⟨.json 400 (.obj [("error", .str "keyword is required")]), false, none⟩
  else if q.lat.getD "" == "" || q.lng.getD "" == "" then
    ⟨.json 400 (.obj [("error", .str "lat and lng are required")]), false, none⟩
  else
    let geoPoint := ngeohashEncode (jsParseFloat (q.lat.getD ""))
      (jsParseFloat (q.lng.getD "")) 7
    let params : SearchParams :=
      ⟨keyword, if distance == "" then "10" else distance, "miles",
        geoPoint, SEGMENT_IDS category⟩
    let result :=
      match f with
      | .error _ => ApiResult.error
      | .ok r =>
        if !(respOk r) then ApiResult.error
        else match r.body with
          | .error _ => ApiResult.error
          | .ok j =>
            match normalizeSearchResults j with
            | .error _ => ApiResult.error
            | .ok out => ApiResult.json 200 out
    ⟨result, true, some params⟩

/-- Embedding of GET /api/event/:id (server.js lines 128-156).  A non-ok
upstream status is answered directly as res.status(r.status).json(error:
"event not found"); network errors, malformed bodies and throwing
normalization go to next(err). -/
def eventDetailHandler (_id : String) (f : FetchOutcome) : Handled :=
  ⟨(match f with
    | .error _ => ApiResult.error
    | .ok r =>
      if !(respOk r) then ApiResult.json r.status (.obj [("error", .str "event not found")])
      else match r.body with
        | .error _ => ApiResult.error
        | .ok e =>
          match detailsOf e with
          | .error _ => ApiResult.error
          | .ok d => ApiResult.json 200 d), true⟩

/-- Embedding of GET /api/venue (server.js lines 159-196): name validation,
then one fetch; any non-ok status throws (next(err)), an ok body with no
embedded venue answers null. -/
def venueHandler (name : Option String) (f : FetchOutcome) : Handled :=
  if name.getD "" == "" then
    ⟨.json 400 (.obj [("error", .str "name is required")]), false⟩
  else
    ⟨(match f with
      | .error _ => ApiResult.error
      | .ok r =>
        if !(respOk r) then ApiResult.error
        else match r.body with
          | .error _ => ApiResult.error
          | .ok j => ApiResult.json 200 (venueRespond j)), true⟩

/-- Embedding of GET /api/suggest (server.js lines 221-246): blank keyword
short-circuits to [] before the fetch; otherwise one fetch whose non-ok
status, malformed body or throwing normalization go to next(err). -/
def suggestHandler (kw : Option String) (f : FetchOutcome) : Handled :=
  let keyword := kw.getD ""
  if jsTrim keyword == "" then ⟨.json 200 (.arr []), false⟩
  else
    ⟨(match f with
      | .error _ => ApiResult.error
      | .ok r =>
        if !(respOk r) then ApiResult.error
        else match r.body with
          | .error _ => ApiResult.error
          | .ok j =>
            match suggestRespond j with
            | .error _ => ApiResult.error
            | .ok out => ApiResult.json 200 out), true⟩

/-! General lemmas used by several proofs below. -/

@[simp] theorem exceptBind_ok (a : α) (f : α → Except Unit β) :
    (bind (Except.ok a) f : Except Unit β) = f a := rfl

@[simp] theorem exceptBind_err (e : Unit) (f : α → Except Unit β) :
    (bind (Except.error e) f : Except Unit β) = Except.error e := rfl

theorem mapM_ok_of_fun (h : α → β) (l : List α) :
    (l.mapM (fun a => (Except.ok (h a) : Except Unit β))) = .ok (l.map h) := by
  rw [← List.mapM'_eq_mapM]
  induction l with
  | nil => rfl
  | cons x xs ih => simp [List.mapM', ih]

/-- First element minimising a boolean preference relation, keeping the
earliest on ties; this is the head of the stable insertion sort. -/
def firstMinBy (le : α → α → Bool) : List α → Option α
  | [] => none
  | x :: xs =>
    match firstMinBy le xs with
    | none => some x
    | some m => if le x m then some x else some m

theorem sortK_head (le : α → α → Bool) (l : List α) :
    (sortK le l).head? = firstMinBy le l := by
  induction l with
  | nil => rfl
  | cons x xs ih =>
    rw [sortK, firstMinBy, ← ih]
    cases h : sortK le xs with
    | nil => simp [sortInsert]
    | cons y ys =>
      by_cases hxy : le x y = true
      · simp [sortInsert, hxy]
      · simp [sortInsert, hxy]

theorem firstMinBy_none (le : α → α → Bool) (l : List α) :
    firstMinBy le l = none ↔ l = [] := by
  cases l with
  | nil => simp [firstMinBy]
  | cons x xs =>
    simp only [firstMinBy]
    cases firstMinBy le xs with
    | none => simp
    | some m => by_cases h : le x m = true <;> simp [h]

theorem firstMinBy_map (le : β → β → Bool) (f : α → β) (l : List α) :
    firstMinBy le (l.map f) = (firstMinBy (fun a b => le (f a) (f b)) l).map f := by
  induction l with
  | nil => rfl
  | cons x xs ih =>
    simp only [List.map_cons, firstMinBy, ih]
    cases firstMinBy (fun a b => le (f a) (f b)) xs with
    | none => simp
    | some m => by_cases h : le (f x) (f m) = true <;> simp [h]

theorem firstMinBy_min (key : α → Rat) :
    ∀ (l : List α) (m : α),
      firstMinBy (fun a b => decide (key a ≤ key b)) l = some m →
      ∀ x ∈ l, key m ≤ key x := by
  intro l
  induction l with
  | nil => intro m h; simp [firstMinBy] at h
  | cons x xs ih =>
    intro m h
    rw [firstMinBy] at h
    cases hm : firstMinBy (fun a b => decide (key a ≤ key b)) xs with
    | none =>
      rw [hm] at h
      obtain rfl : x = m := by simpa using h
      have hnil : xs = [] := (firstMinBy_none _ _).mp hm
      simp [hnil]
    | some m2 =>
      rw [hm] at h
      by_cases hle : key x ≤ key m2
      · simp [hle] at h
        subst h
        intro y hy
        rcases List.mem_cons.mp hy with rfl | hy2
        · exact le_refl _
        · exact le_trans hle (ih m2 hm y hy2)
      · have hq : m2 = m := by simpa [hle] using h
        subst hq
        intro y hy
        rcases List.mem_cons.mp hy with rfl | hy2
        · exact le_of_lt (lt_of_not_le hle)
        · exact ih m2 hm y hy2

theorem firstMinBy_first (key : α → Rat) :
    ∀ (l : List α) (m : α),
      firstMinBy (fun a b => decide (key a ≤ key b)) l = some m →
      ∃ l1 l2, l = l1 ++ m :: l2 ∧ ∀ x ∈ l1, key m < key x := by
  intro l
  induction l with
  | nil => intro m h; simp [firstMinBy] at h
  | cons x xs ih =>
    intro m h
    rw [firstMinBy] at h
    cases hm : firstMinBy (fun a b => decide (key a ≤ key b)) xs with
    | none =>
      rw [hm] at h
      obtain rfl : x = m := by simpa using h
      exact ⟨[], xs, rfl, by simp⟩
    | some m2 =>
      rw [hm] at h
      by_cases hle : key x ≤ key m2
      · simp [hle] at h
        subst h
        exact ⟨[], xs, rfl, by simp⟩
      · have hq : m2 = m := by simpa [hle] using h
        subst hq
        obtain ⟨l1, l2, hsplit, hfirst⟩ := ih m2 hm
        subst hsplit
        refine ⟨x :: l1, l2, rfl, ?_⟩
        intro y hy
        rcases List.mem_cons.mp hy with rfl | hy2
        · exact lt_of_not_le hle
        · exact hfirst y hy2

@[simp] theorem jsonBeq_str (a b : String) :
    Json.beq (.str a) (.str b) = (a == b) := by
  simp [Json.beq]

/-- Specification-side deduplication on strings (remove duplicates keeping
the first occurrence), for comparison with the Set-based code. -/
def dedupFirstStrAux : List String → List String → List String
  | [], _ => []
  | x :: xs, seen =>
    if seen.any (fun y => x == y) then dedupFirstStrAux xs seen
    else x :: dedupFirstStrAux xs (x :: seen)

def dedupFirstStr (l : List String) : List String :=
  dedupFirstStrAux l []

theorem jsSetDedupAux_str :
    ∀ (l seen : List String),
      jsSetDedupAux (l.map Json.str) (seen.map Json.str)
        = (dedupFirstStrAux l seen).map Json.str := by
  intro l
  induction l with
  | nil => intro seen; rfl
  | cons x xs ih =>
    intro seen
    simp only [List.map_cons, jsSetDedupAux, dedupFirstStrAux]
    have hmem : ∀ sn : List String, ((sn.map Json.str).any fun y => Json.beq (Json.str x) y)
        = sn.any (fun y => x == y) := by
      intro sn
      induction sn with
      | nil => rfl
      | cons s ss ihs => simp only [List.map_cons, List.any_cons, ihs, jsonBeq_str]
    rw [hmem seen]
    by_cases hc : seen.any (fun y => x == y) = true
    · simp only [hc, if_true, ih]
    · simp only [hc, if_false, Bool.false_eq_true]
      rw [show (Json.str x :: seen.map Json.str) = (x :: seen).map Json.str from rfl, ih]
      simp

theorem jsSetDedup_str (l : List String) :
    jsSetDedup (l.map Json.str) = (dedupFirstStr l).map Json.str := by
  simpa [jsSetDedup, dedupFirstStr] using jsSetDedupAux_str l []

theorem geohashBits_length (lat lng : Option Rat) :
    ∀ (n : Nat) (a b : Rat × Rat) (e : Bool),
      (geohashBits lat lng n a b e).length = n := by
  intro n
  induction n with
  | zero => intro a b e; rfl
  | succ k ih =>
    intro a b e
    obtain ⟨a1, a2⟩ := a
    obtain ⟨b1, b2⟩ := b
    cases e <;> simp [geohashBits, apply_ite List.length, ih]

theorem charsOfBits_length :
    ∀ (k : Nat) (bs : List Bool), bs.length = 5 * k → (charsOfBits bs).length = k := by
  intro k
  induction k with
  | zero =>
    intro bs h
    have hb : bs = [] := List.eq_nil_of_length_eq_zero (by omega)
    subst hb
    rfl
  | succ j ih =>
    intro bs h
    cases bs with
    | nil => simp only [List.length_nil] at h; omega
    | cons b1 t1 =>
      cases t1 with
      | nil => simp only [List.length_cons, List.length_nil] at h; omega
      | cons b2 t2 =>
        cases t2 with
        | nil => simp only [List.length_cons, List.length_nil] at h; omega
        | cons b3 t3 =>
          cases t3 with
          | nil => simp only [List.length_cons, List.length_nil] at h; omega
          | cons b4 t4 =>
            cases t4 with
            | nil => simp only [List.length_cons, List.length_nil] at h; omega
            | cons b5 rest =>
              have hr : rest.length = 5 * j := by
                simp only [List.length_cons] at h; omega
              simp [charsOfBits, ih rest hr]

theorem ngeohashEncode_length (lat lng : Option Rat) (p : Nat) :
    (ngeohashEncode lat lng p).length = p := by
  show (charsOfBits (geohashBits lat lng (p * 5) (-90, 90) (-180, 180) true)).length = p
  exact charsOfBits_length p _ (by rw [geohashBits_length]; ring)

/-! Claim theorems. -/

/-- C4: for every search call with an empty keyword or a missing lat or lng,
and for every venue call with a missing name, a validation error (HTTP 400)
is surfaced immediately and no upstream call is attempted. -/
theorem validation_short_circuits :
    (∀ (q : SearchQuery) (f : FetchOutcome),
      (q.keyword.getD "" = "" ∨ q.lat = none ∨ q.lng = none) →
      (∃ b, (searchHandler q f).result = .json 400 b) ∧
        (searchHandler q f).fetchCalled = false) ∧
    (∀ (name : Option String) (f : FetchOutcome),
      name = none →
      (∃ b, (venueHandler name f).result = .json 400 b) ∧
        (venueHandler name f).fetchCalled = false) := by
  constructor
  · intro q f h
    by_cases hk : q.keyword.getD "" = ""
    · have heq : searchHandler q f
          = ⟨.json 400 (.obj [("error", .str "keyword is required")]), false, none⟩ := by
        simp [searchHandler, hk]
      rw [heq]
      exact ⟨⟨_, rfl⟩, rfl⟩
    · have hl : (q.lat.getD "" == "" || q.lng.getD "" == "") = true := by
        rcases h with h | h | h
        · exact absurd h hk
        · simp [h]
        · simp [h]
      have heq : searchHandler q f
          = ⟨.json 400 (.obj [("error", .str "lat and lng are required")]), false, none⟩ := by
        simp [searchHandler, hk, hl]
      rw [heq]
      exact ⟨⟨_, rfl⟩, rfl⟩
  · intro name f h
    subst h
    exact ⟨⟨_, rfl⟩, rfl⟩

/-- C4 witness: a concrete empty-keyword search and a missing-name venue call
are both rejected with a 400 and no fetch. -/
theorem validation_short_circuits_witness :
    ((∃ b, (searchHandler ⟨some "", some "10", some "Default", some "34", some "-118"⟩
        (Except.error ())).result = .json 400 b) ∧
      (searchHandler ⟨some "", some "10", some "Default", some "34", some "-118"⟩
        (Except.error ())).fetchCalled = false) ∧
    ((∃ b, (venueHandler none (Except.error ())).result = .json 400 b) ∧
      (venueHandler none (Except.error ())).fetchCalled = false) :=
  ⟨validation_short_circuits.1 _ _ (Or.inl rfl),
   validation_short_circuits.2 none _ rfl⟩

/-- C9: ticketStatusColor classifies a status-code string by case-insensitive
substring tests applied in the fixed order onsale, offsale, cancel, postpon,
resched (first match wins: each later rule applies only when all earlier
tests fail), and everything else - including the empty string - is gray. -/
theorem ticketStatusColor_classification (s : String) :
    (jsIncludes (jsToLower s) "onsale" = true →
      ticketStatusColor (.str s) = .ok "green") ∧
    (jsIncludes (jsToLower s) "onsale" = false →
      jsIncludes (jsToLower s) "offsale" = true →
      ticketStatusColor (.str s) = .ok "red") ∧
    (jsIncludes (jsToLower s) "onsale" = false →
      jsIncludes (jsToLower s) "offsale" = false →
      jsIncludes (jsToLower s) "cancel" = true →
      ticketStatusColor (.str s) = .ok "black") ∧
    (jsIncludes (jsToLower s) "onsale" = false →
      jsIncludes (jsToLower s) "offsale" = false →
      jsIncludes (jsToLower s) "cancel" = false →
      (jsIncludes (jsToLower s) "postpon" = true ∨ jsIncludes (jsToLower s) "resched" = true) →
      ticketStatusColor (.str s) = .ok "orange") ∧
    (jsIncludes (jsToLower s) "onsale" = false →
      jsIncludes (jsToLower s) "offsale" = false →
      jsIncludes (jsToLower s) "cancel" = false →
      jsIncludes (jsToLower s) "postpon" = false →
      jsIncludes (jsToLower s) "resched" = false →
      ticketStatusColor (.str s) = .ok "gray") := by
  have hor : jsOr (.str s) (.str "") = .str s := by
    by_cases hs : s == ""
    · simp only [jsOr, jsTruthy, hs, Bool.not_true, if_false, Bool.false_eq_true]
      rw [show s = "" from by simpa using hs]
    · simp [jsOr, jsTruthy, hs]
  refine ⟨?_, ?_, ?_, ?_, ?_⟩
  · intro h1
    simp [ticketStatusColor, hor, h1]
  · intro h1 h2
    simp [ticketStatusColor, hor, h1, h2]
  · intro h1 h2 h3
    simp [ticketStatusColor, hor, h1, h2, h3]
  · intro h1 h2 h3 h4
    rcases h4 with h | h
    · simp [ticketStatusColor, hor, h1, h2, h3, h]
    · by_cases hp : jsIncludes (jsToLower s) "postpon" = true
      · simp [ticketStatusColor, hor, h1, h2, h3, hp]
      · have hp2 : jsIncludes (jsToLower s) "postpon" = false := by
          simpa using hp
        simp [ticketStatusColor, hor, h1, h2, h3, hp2, h]
  · intro h1 h2 h3 h4 h5
    simp [ticketStatusColor, hor, h1, h2, h3, h4, h5]

/-- C9 witness: concrete classifications, including the case-insensitive
resched rule and the empty-string gray default. -/
theorem ticketStatusColor_classification_witness :
    ticketStatusColor (.str "offsale") = .ok "red" ∧
    ticketStatusColor (.str "RescheduleD") = .ok "orange" ∧
    ticketStatusColor (.str "") = .ok "gray" :=
  ⟨(ticketStatusColor_classification "offsale").2.1 (by decide) (by decide),
   (ticketStatusColor_classification "RescheduleD").2.2.2.1 (by decide) (by decide) (by decide)
     (Or.inr (by decide)),
   (ticketStatusColor_classification "").2.2.2.2 (by decide) (by decide) (by decide)
     (by decide) (by decide)⟩

/-- C10: any search call with a non-empty keyword and non-empty lat/lng
strings passes validation (no numeric or range check is performed on the
coordinates), the upstream request is attempted, and its geoPoint parameter
is the precision-7 geohash of the parseFloat conversions of the raw strings
(NaN for non-numeric input). -/
theorem search_coordinates_unchecked (q : SearchQuery) (f : FetchOutcome)
    (kw la ln : String)
    (hkw : q.keyword = some kw) (hkw2 : kw ≠ "")
    (hla : q.lat = some la) (hla2 : la ≠ "")
    (hln : q.lng = some ln) (hln2 : ln ≠ "") :
    (searchHandler q f).fetchCalled = true ∧
    ∃ p : SearchParams, (searchHandler q f).request = some p ∧
      p.geoPoint = ngeohashEncode (jsParseFloat la) (jsParseFloat ln) 7 ∧
      p.geoPoint.length = 7 := by
  refine ⟨?_,
    ⟨⟨kw, if q.distance.getD "10" == "" then "10" else q.distance.getD "10", "miles",
      ngeohashEncode (jsParseFloat la) (jsParseFloat ln) 7,
      SEGMENT_IDS (q.category.getD "Default")⟩, ?_, ?_, ?_⟩⟩
  · simp [searchHandler, hkw, hkw2, hla, hla2, hln, hln2]
  · simp [searchHandler, hkw, hkw2, hla, hla2, hln, hln2]
  · rfl
  · exact ngeohashEncode_length _ _ 7

/-- C10 witness: a non-numeric latitude string still passes validation and
reaches the geohash-encoded upstream request. -/
theorem search_coordinates_unchecked_witness :
    (searchHandler ⟨some "concert", none, none, some "abc", some "-118"⟩
        (Except.error ())).fetchCalled = true ∧
    ∃ p : SearchParams,
      (searchHandler ⟨some "concert", none, none, some "abc", some "-118"⟩
        (Except.error ())).request = some p ∧
      p.geoPoint = ngeohashEncode (jsParseFloat "abc") (jsParseFloat "-118") 7 ∧
      p.geoPoint.length = 7 :=
  search_coordinates_unchecked _ _ "concert" "abc" "-118" rfl (by decide) rfl (by decide)
    rfl (by decide)

/-- C5: the suggest operation short-circuits on blank input and treats "no
matches" as an empty list.  A keyword that trims to the empty string is
answered with [] and no upstream call is made; an ok upstream response whose
body has no _embedded object (and likewise one with three empty category
lists) is answered with [] rather than with an error. -/
theorem suggest_blank_and_no_matches :
    (∀ (kw : Option String) (f : FetchOutcome),
      jsTrim (kw.getD "") = "" →
      (suggestHandler kw f).result = .json 200 (.arr []) ∧
        (suggestHandler kw f).fetchCalled = false) ∧
    (∀ (kw : String) (st : Nat) (fs : List (String × Json)),
      jsTrim kw ≠ "" → 200 ≤ st → st ≤ 299 →
      jsObjFind fs "_embedded" = none →
      (suggestHandler (some kw) (.ok ⟨st, .ok (.obj fs)⟩)).result = .json 200 (.arr [])) ∧
    (∀ (kw : String) (st : Nat),
      jsTrim kw ≠ "" → 200 ≤ st → st ≤ 299 →
      (suggestHandler (some kw) (.ok ⟨st, .ok (.obj [("_embedded", .obj
          [("attractions", .arr []), ("venues", .arr []), ("events", .arr [])])])⟩)).result
        = .json 200 (.arr [])) := by
  refine ⟨?_, ?_, ?_⟩
  · intro kw f h
    constructor <;> simp [suggestHandler, h]
  · intro kw st fs h h1 h2 hemb
    have hok : respOk ⟨st, .ok (.obj fs)⟩ = true := by simp [respOk, h1, h2]
    simp [suggestHandler, h, hok, suggestRespond, jsGet, hemb, jsTruthy, jsSetDedup,
      jsSetDedupAux]
  · intro kw st h h1 h2
    have hok : respOk ⟨st, .ok (.obj [("_embedded", .obj
        [("attractions", .arr []), ("venues", .arr []), ("events", .arr [])])])⟩ = true := by
      simp [respOk, h1, h2]
    simp only [suggestHandler, h, hok]
    simp [h]
    rfl

/-- C5 witness: a whitespace keyword yields [] with no fetch, and an ok
response with no matches yields [] rather than an error. -/
theorem suggest_blank_and_no_matches_witness :
    ((suggestHandler (some "   ") (Except.error ())).result = .json 200 (.arr []) ∧
      (suggestHandler (some "   ") (Except.error ())).fetchCalled = false) ∧
    (suggestHandler (some "bk") (.ok ⟨200, .ok (.obj [])⟩)).result = .json 200 (.arr []) :=
  ⟨suggest_blank_and_no_matches.1 (some "   ") _ (by decide),
   suggest_blank_and_no_matches.2.1 "bk" 200 [] (by decide) (by decide) (by decide) rfl⟩

/-- C1 counterexample: the claim says a not-found upstream status is treated
as empty only for not-found, while 5xx and other failures propagate as a
generic failure never masked as not-found.  On the code, the detail route
answers ANY non-ok status - here an upstream 500 - with a not-found style
body (masking the 5xx as not-found instead of failing generically), and the
venue route turns an upstream 404 into the generic failure instead of a
null result. -/
theorem upstream_notfound_cex :
    (eventDetailHandler "G5diZ" (.ok ⟨500, .ok (.obj [])⟩)).result
      = .json 500 (.obj [("error", .str "event not found")]) ∧
    (eventDetailHandler "G5diZ" (.ok ⟨500, .ok (.obj [])⟩)).result ≠ .error ∧
    (venueHandler (some "The Forum") (.ok ⟨404, .ok (.obj [])⟩)).result = .error := by
  refine ⟨rfl, ?_, rfl⟩
  intro h
  simpa using h.symm.trans (show (eventDetailHandler "G5diZ" (.ok ⟨500, .ok (.obj [])⟩)).result
    = .json 500 (.obj [("error", .str "event not found")]) from rfl)

/-- C1 amended: network failures and malformed bodies propagate as generic
failures on both lookups; the detail route maps EVERY non-2xx upstream
status (not-found and 5xx alike) to a not-found style response that echoes
the upstream status; the venue route maps every non-2xx status (including
404) to the generic failure, and answers null only for a 2xx body with no
embedded venue. -/
theorem upstream_error_handling_amended :
    (∀ (id : String), (eventDetailHandler id (.error ())).result = .error) ∧
    (∀ (id : String) (r : TMResponse), respOk r = false →
      (eventDetailHandler id (.ok r)).result
        = .json r.status (.obj [("error", .str "event not found")])) ∧
    (∀ (id : String) (st : Nat), 200 ≤ st → st ≤ 299 →
      (eventDetailHandler id (.ok ⟨st, .error ()⟩)).result = .error) ∧
    (∀ (name : String), name ≠ "" →
      (venueHandler (some name) (.error ())).result = .error) ∧
    (∀ (name : String) (r : TMResponse), name ≠ "" → respOk r = false →
      (venueHandler (some name) (.ok r)).result = .error) ∧
    (∀ (name : String) (st : Nat), name ≠ "" → 200 ≤ st → st ≤ 299 →
      (venueHandler (some name) (.ok ⟨st, .error ()⟩)).result = .error) ∧
    (∀ (name : String) (st : Nat) (j : Json), name ≠ "" → 200 ≤ st → st ≤ 299 →
      jsTruthy (jsOptIdx (jsOptGet (jsOptGet j "_embedded") "venues") 0) = false →
      (venueHandler (some name) (.ok ⟨st, .ok j⟩)).result = .json 200 .null) := by
  refine ⟨?_, ?_, ?_, ?_, ?_, ?_, ?_⟩
  · intro id
    rfl
  · intro id r h
    simp [eventDetailHandler, h]
  · intro id st h1 h2
    have hok : respOk ⟨st, .error ()⟩ = true := by simp [respOk, h1, h2]
    simp [eventDetailHandler, hok]
  · intro name h
    simp [venueHandler, h]
  · intro name r h h2
    simp [venueHandler, h, h2]
  · intro name st h h1 h2
    have hok : respOk ⟨st, .error ()⟩ = true := by simp [respOk, h1, h2]
    simp [venueHandler, h, hok]
  · intro name st j h h1 h2 hv
    have hok : respOk ⟨st, .ok j⟩ = true := by simp [respOk, h1, h2]
    simp [venueHandler, h, hok, venueRespond, hv]

/-- C1 amended witness: concrete instances of the amended behaviors - a
network error on the detail lookup fails generically, an upstream 404 on the
detail lookup is echoed as a 404 not-found response, and a 2xx venue body
with no embedded venue is answered with null. -/
theorem upstream_error_handling_amended_witness :
    (eventDetailHandler "G5diZ" (.error ())).result = .error ∧
    (eventDetailHandler "G5diZ" (.ok ⟨404, .ok .null⟩)).result
      = .json 404 (.obj [("error", .str "event not found")]) ∧
    (venueHandler (some "The Forum") (.ok ⟨200, .ok (.obj [])⟩)).result = .json 200 .null :=
  ⟨upstream_error_handling_amended.1 "G5diZ",
   upstream_error_handling_amended.2.1 "G5diZ" ⟨404, .ok .null⟩ (by decide),
   upstream_error_handling_amended.2.2.2.2.2.2 "The Forum" 200 (.obj []) (by decide)
     (by decide) (by decide) rfl⟩

/-- C3 counterexample: the claim says a non-array _embedded.events (for
example an object) yields the empty list and never raises.  On the code, a
truthy non-array events value reaches .map, which is not a function: the
normalization throws and the route answers the generic failure, not []. -/
theorem search_nonarray_events_cex :
    normalizeSearchResults (.obj [("_embedded", .obj [("events", .obj [])])]) = .error () ∧
    (searchHandler ⟨some "concert", some "10", some "Default", some "34", some "-118"⟩
        (.ok ⟨200, .ok (.obj [("_embedded", .obj [("events", .obj [])])])⟩)).result
      = .error := by
  exact ⟨rfl, rfl⟩

/-- C3 amended: an absent or otherwise falsy _embedded.events (undefined,
null, 0, empty string) normalizes to the empty list without an error, and a
whole search call in that situation answers 200 []; but a truthy non-array
events value (an object or a non-empty string) makes the normalization
throw, surfacing as a generic failure. -/
theorem search_events_missing_amended :
    (∀ j : Json, jsTruthy (jsOptGet (jsOptGet j "_embedded") "events") = false →
      normalizeSearchResults j = .ok (.arr [])) ∧
    (∀ (q : SearchQuery) (kw la ln : String) (st : Nat) (j : Json),
      q.keyword = some kw → kw ≠ "" → q.lat = some la → la ≠ "" →
      q.lng = some ln → ln ≠ "" → 200 ≤ st → st ≤ 299 →
      jsTruthy (jsOptGet (jsOptGet j "_embedded") "events") = false →
      (searchHandler q (.ok ⟨st, .ok j⟩)).result = .json 200 (.arr [])) := by
  have hnorm : ∀ j : Json, jsTruthy (jsOptGet (jsOptGet j "_embedded") "events") = false →
      normalizeSearchResults j = .ok (.arr []) := by
    intro j h
    simp [normalizeSearchResults, jsOr, h]
    rfl
  refine ⟨hnorm, ?_⟩
  intro q kw la ln st j hkw hkw2 hla hla2 hln hln2 h1 h2 hev
  have hok : respOk ⟨st, .ok j⟩ = true := by simp [respOk, h1, h2]
  simp [searchHandler, hkw, hkw2, hla, hla2, hln, hln2, hok, hnorm j hev]

/-- C3 amended witness: a payload with no _embedded at all is answered with
200 and the empty list. -/
theorem search_events_missing_amended_witness :
    (searchHandler ⟨some "concert", some "10", some "Default", some "34", some "-118"⟩
        (.ok ⟨200, .ok (.obj [])⟩)).result = .json 200 (.arr []) :=
  search_events_missing_amended.2
    ⟨some "concert", some "10", some "Default", some "34", some "-118"⟩
    "concert" "34" "-118" 200 (.obj []) rfl (by decide) rfl (by decide) rfl (by decide)
    (by decide) (by decide) rfl

/-- Upstream suggest entry carrying a plain string name, as used to state the
amended C6 claim. -/
def mkNamed (s : String) : Json :=
  .obj [("name", .str s)]

/-- Suggest payload with the three embedded category lists. -/
def suggestBody (A V E : List String) : Json :=
  .obj [("_embedded", .obj [
    ("attractions", .arr (A.map mkNamed)),
    ("venues", .arr (V.map mkNamed)),
    ("events", .arr (E.map mkNamed))])]

theorem jsForEachName_mk (l : List String) :
    jsForEachName (.arr (l.map mkNamed)) = .ok (l.map Json.str) := by
  simp only [jsForEachName]
  induction l with
  | nil => rfl
  | cons x xs ih =>
    rw [← List.mapM'_eq_mapM] at ih ⊢
    simp only [List.map_cons, List.mapM']
    rw [show jsGet (mkNamed x) "name" = .ok (.str x) from rfl]
    simp [ih]

/-- C6 counterexample: the claim says every returned suggestion element is a
string for every upstream payload.  An attraction with no name field pushes
undefined: the route answers a list whose only element is undefined (which
JSON-serializes as null), not a string. -/
theorem suggest_string_elements_cex :
    (suggestHandler (some "a") (.ok ⟨200, .ok (.obj [("_embedded", .obj
        [("attractions", .arr [.obj []]), ("venues", .arr []), ("events", .arr [])])])⟩)).result
      = .json 200 (.arr [Json.undefined]) := by
  rfl

/-- C6 amended: on payloads whose attraction/venue/event entries all carry
string names, the suggest normalization flattens attraction, then venue,
then event names (preserving each list's order), removes duplicates keeping
the first occurrence, truncates to 10, and every returned element is a
string; a missing _embedded yields the empty list.  Entries without a name
contribute a non-string undefined element instead. -/
theorem suggest_flatten_dedup_amended :
    (∀ (kw : String) (st : Nat) (A V E : List String),
      jsTrim kw ≠ "" → 200 ≤ st → st ≤ 299 →
      (suggestHandler (some kw) (.ok ⟨st, .ok (suggestBody A V E)⟩)).result
        = .json 200 (.arr (((dedupFirstStr (A ++ V ++ E)).take 10).map Json.str))) ∧
    (∀ (kw : String) (st : Nat) (fs : List (String × Json)),
      jsTrim kw ≠ "" → 200 ≤ st → st ≤ 299 → jsObjFind fs "_embedded" = none →
      (suggestHandler (some kw) (.ok ⟨st, .ok (.obj fs)⟩)).result = .json 200 (.arr [])) := by
  constructor
  · intro kw st A V E h h1 h2
    have hok : respOk ⟨st, .ok (suggestBody A V E)⟩ = true := by simp [respOk, h1, h2]
    have hresp : suggestRespond (suggestBody A V E)
        = .ok (.arr (((dedupFirstStr (A ++ V ++ E)).take 10).map Json.str)) := by
      simp only [suggestRespond, suggestBody]
      rw [show jsGet (Json.obj [("_embedded", Json.obj [
          ("attractions", Json.arr (A.map mkNamed)),
          ("venues", Json.arr (V.map mkNamed)),
          ("events", Json.arr (E.map mkNamed))])]) "_embedded" = .ok (Json.obj [
          ("attractions", Json.arr (A.map mkNamed)),
          ("venues", Json.arr (V.map mkNamed)),
          ("events", Json.arr (E.map mkNamed))]) from rfl]
      simp only [exceptBind_ok, jsTruthy, if_true]
      rw [show jsDestructArr (Json.obj [
          ("attractions", Json.arr (A.map mkNamed)),
          ("venues", Json.arr (V.map mkNamed)),
          ("events", Json.arr (E.map mkNamed))]) "attractions"
          = Json.arr (A.map mkNamed) from rfl]
      rw [show jsDestructArr (Json.obj [
          ("attractions", Json.arr (A.map mkNamed)),
          ("venues", Json.arr (V.map mkNamed)),
          ("events", Json.arr (E.map mkNamed))]) "venues"
          = Json.arr (V.map mkNamed) from rfl]
      rw [show jsDestructArr (Json.obj [
          ("attractions", Json.arr (A.map mkNamed)),
          ("venues", Json.arr (V.map mkNamed)),
          ("events", Json.arr (E.map mkNamed))]) "events"
          = Json.arr (E.map mkNamed) from rfl]
      rw [jsForEachName_mk, jsForEachName_mk, jsForEachName_mk]
      simp only [exceptBind_ok]
      rw [show (A.map Json.str ++ V.map Json.str ++ E.map Json.str)
          = (A ++ V ++ E).map Json.str by simp]
      rw [jsSetDedup_str, List.map_take]
    simp [suggestHandler, h, hok, hresp]
  · intro kw st fs h h1 h2 hemb
    have hok : respOk ⟨st, .ok (.obj fs)⟩ = true := by simp [respOk, h1, h2]
    simp [suggestHandler, h, hok, suggestRespond, jsGet, hemb, jsTruthy, jsSetDedup,
      jsSetDedupAux]

/-- C6 amended witness: the specification example - attractions A,B, venues
B,C, events A - flattens and deduplicates to A,B,C, all strings. -/
theorem suggest_flatten_dedup_amended_witness :
    (suggestHandler (some "la")
        (.ok ⟨200, .ok (suggestBody ["A", "B"] ["B", "C"] ["A"])⟩)).result
      = .json 200 (.arr (((dedupFirstStr (["A", "B"] ++ ["B", "C"] ++ ["A"])).take 10).map
          Json.str)) ∧
    ((dedupFirstStr (["A", "B"] ++ ["B", "C"] ++ ["A"])).take 10).map Json.str
      = [Json.str "A", Json.str "B", Json.str "C"] :=
  ⟨suggest_flatten_dedup_amended.1 "la" 200 ["A", "B"] ["B", "C"] ["A"]
      (by decide) (by decide) (by decide),
   rfl⟩

/-- Upstream venue payload with one embedded venue whose name is fixed and
whose raw coordinate values are the given JSON values, used to state the
amended C7 claim. -/
def mkVenueBody (latJ lngJ : Json) : Json :=
  .obj [("_embedded", .obj [("venues", .arr [.obj [
    ("name", .str "V"),
    ("location", .obj [("latitude", latJ), ("longitude", lngJ)])]])])]

/-- C7 counterexample: the claim says location.lat is null exactly when the
upstream coordinate is absent and googleMapsUrl is non-null exactly when
both coordinates are present.  On the code the tests are truthiness tests:
a present latitude of 0 (a legitimate equator coordinate) yields lat = null
and googleMapsUrl = null even though both coordinates are present. -/
theorem venue_nullness_cex :
    venueRespond (mkVenueBody (.num 0) (.num 50))
      = .obj [("name", .str "V"), ("address", .str "V"),
          ("location", .obj [("lat", Json.null), ("lng", .num 50)]),
          ("googleMapsUrl", Json.null), ("tmUrl", Json.null)] := by
  rfl

/-- C7 amended: a payload with no embedded venue (more precisely, a falsy
venues[0]) is answered with null, a valid non-error outcome.  In the built
VenueInfo, location.lat and location.lng are null exactly when the raw
upstream coordinate is FALSY (absent, null, 0, NaN or empty string) - not
exactly when absent - and otherwise carry the ToNumber conversion of the
raw value; googleMapsUrl is null exactly unless BOTH raw coordinates are
truthy. -/
theorem venue_nullness_amended :
    (∀ j : Json, jsTruthy (jsOptIdx (jsOptGet (jsOptGet j "_embedded") "venues") 0) = false →
      venueRespond j = .null) ∧
    (∀ latJ lngJ : Json,
      (jsOptGet (jsOptGet (venueRespond (mkVenueBody latJ lngJ)) "location") "lat"
        = (if jsTruthy latJ then
            (match toNumber latJ with | some q => Json.num q | none => Json.nan)
          else Json.null)) ∧
      (jsOptGet (jsOptGet (venueRespond (mkVenueBody latJ lngJ)) "location") "lat"
          = Json.null ↔ jsTruthy latJ = false) ∧
      (jsOptGet (jsOptGet (venueRespond (mkVenueBody latJ lngJ)) "location") "lng"
        = (if jsTruthy lngJ then
            (match toNumber lngJ with | some q => Json.num q | none => Json.nan)
          else Json.null)) ∧
      (jsOptGet (jsOptGet (venueRespond (mkVenueBody latJ lngJ)) "location") "lng"
          = Json.null ↔ jsTruthy lngJ = false) ∧
      (jsOptGet (venueRespond (mkVenueBody latJ lngJ)) "googleMapsUrl" = Json.null
          ↔ ¬(jsTruthy latJ = true ∧ jsTruthy lngJ = true))) := by
  constructor
  · intro j h
    simp [venueRespond, h]
  · intro latJ lngJ
    have hv : venueRespond (mkVenueBody latJ lngJ)
        = .obj [
          ("name", .str "V"),
          ("address", .str "V"),
          ("location", .obj [
            ("lat", if jsTruthy latJ then
                (match toNumber latJ with | some q => Json.num q | none => Json.nan)
              else .null),
            ("lng", if jsTruthy lngJ then
                (match toNumber lngJ with | some q => Json.num q | none => Json.nan)
              else .null)]),
          ("googleMapsUrl", if jsTruthy latJ && jsTruthy lngJ then
              .str ("https://www.google.com/maps/search/?api=1&query=" ++
                jsToString latJ ++ "," ++ jsToString lngJ)
            else .null),
          ("tmUrl", Json.null)] := by
      rfl
    rw [hv]
    refine ⟨rfl, ?_, rfl, ?_, ?_⟩
    · show (if jsTruthy latJ then
          (match toNumber latJ with | some q => Json.num q | none => Json.nan)
        else Json.null) = Json.null ↔ jsTruthy latJ = false
      cases h : jsTruthy latJ <;> simp
      cases toNumber latJ <;> simp
    · show (if jsTruthy lngJ then
          (match toNumber lngJ with | some q => Json.num q | none => Json.nan)
        else Json.null) = Json.null ↔ jsTruthy lngJ = false
      cases h : jsTruthy lngJ <;> simp
      cases toNumber lngJ <;> simp
    · show (if jsTruthy latJ && jsTruthy lngJ then
          .str ("https://www.google.com/maps/search/?api=1&query=" ++
            jsToString latJ ++ "," ++ jsToString lngJ)
        else Json.null) = Json.null ↔ ¬(jsTruthy latJ = true ∧ jsTruthy lngJ = true)
      cases h1 : jsTruthy latJ <;> cases h2 : jsTruthy lngJ <;> simp

/-- C7 amended witness: a 2xx body with no embedded venue is answered null,
and string coordinates are converted to numbers with a maps URL present. -/
theorem venue_nullness_amended_witness :
    venueRespond (.obj []) = Json.null ∧
    (jsOptGet (jsOptGet (venueRespond (mkVenueBody (.str "34.05") (.str "-118.25")))
        "location") "lat"
      = (if jsTruthy (Json.str "34.05") then
          (match toNumber (Json.str "34.05") with | some q => Json.num q | none => Json.nan)
        else Json.null)) ∧
    (jsOptGet (venueRespond (mkVenueBody (.str "34.05") (.str "-118.25"))) "googleMapsUrl"
        = Json.null ↔ ¬(jsTruthy (Json.str "34.05") = true ∧
          jsTruthy (Json.str "-118.25") = true)) :=
  ⟨venue_nullness_amended.1 (.obj []) rfl,
   (venue_nullness_amended.2 (.str "34.05") (.str "-118.25")).1,
   (venue_nullness_amended.2 (.str "34.05") (.str "-118.25")).2.2.2.2⟩

/-! Image payload model used to state the C8 and C2 claims about pickImage:
an upstream image record carrying url, width and height. -/

structure ImagePayload where
  url : String
  width : Rat
  height : Rat

def imageToJson (im : ImagePayload) : Json :=
  .obj [("url", .str im.url), ("width", .num im.width), ("height", .num im.height)]

/-- The comparator key of the pickImage sort: |width - height|. -/
def imgDiff (im : ImagePayload) : Rat :=
  |im.width - im.height|

theorem imgSortKey_image (im : ImagePayload) :
    imgSortKey (imageToJson im) = .ok (imageToJson im, some (imgDiff im)) := rfl

theorem filter_image_defined (l : List ImagePayload) :
    (l.map imageToJson).filter (fun e => !(jsIsUndefined e)) = l.map imageToJson := by
  induction l with
  | nil => rfl
  | cons x xs ih => simp [List.filter, ih, jsIsUndefined, imageToJson]

theorem filter_image_undefined (l : List ImagePayload) :
    (l.map imageToJson).filter (fun e => jsIsUndefined e) = [] := by
  induction l with
  | nil => rfl
  | cons x xs ih => simp [List.filter, ih, jsIsUndefined, imageToJson]

theorem mapM_imgSortKey (l : List ImagePayload) :
    (l.map imageToJson).mapM imgSortKey
      = .ok (l.map (fun im => (imageToJson im, some (imgDiff im)))) := by
  rw [← List.mapM'_eq_mapM]
  induction l with
  | nil => rfl
  | cons x xs ih => simp [List.mapM', imgSortKey_image, ih]

theorem sortK_keyed_head (l : List ImagePayload) (m : ImagePayload)
    (hm : firstMinBy (fun a b => decide (imgDiff a ≤ imgDiff b)) l = some m) :
    (sortK pairKeyLE (l.map (fun im => (imageToJson im, some (imgDiff im))))).head?
      = some (imageToJson m, some (imgDiff m)) := by
  rw [sortK_head, firstMinBy_map]
  have hrel : (fun a b => pairKeyLE ((imageToJson a, some (imgDiff a)))
      ((imageToJson b, some (imgDiff b)))) = (fun a b => decide (imgDiff a ≤ imgDiff b)) := rfl
  rw [show (fun a b => pairKeyLE ((fun im => (imageToJson im, some (imgDiff im))) a)
      ((fun im => (imageToJson im, some (imgDiff im))) b))
      = (fun a b => decide (imgDiff a ≤ imgDiff b)) from hrel, hm]
  rfl

/-- Evaluation of pickImage on an array of image records: the result is the
url of the first image with minimal |width - height|, falling back to the
first image's url when that minimal url is empty. -/
theorem pickImage_eval (l : List ImagePayload) (m : ImagePayload)
    (hm : firstMinBy (fun a b => decide (imgDiff a ≤ imgDiff b)) l = some m) :
    pickImage (.arr (l.map imageToJson)) =
      .ok (.str (if m.url = "" then (l.headD m).url else m.url)) := by
  cases l with
  | nil => simp [firstMinBy] at hm
  | cons i0 rest =>
    cases rest with
    | nil =>
      obtain rfl : i0 = m := by simpa [firstMinBy] using hm
      by_cases hu : i0.url = ""
      · simp [pickImage, jsIsUndefined, imageToJson, jsOptGet, jsObjFind, jsGet, jsTruthy,
          List.filter, hu]
      · simp [pickImage, jsIsUndefined, imageToJson, jsOptGet, jsObjFind, jsGet, jsTruthy,
          List.filter, hu]
    | cons i1 rest2 =>
      have hfd : ((imageToJson i0 :: (i1 :: rest2).map imageToJson).filter
          (fun e => !(jsIsUndefined e))) = (i0 :: i1 :: rest2).map imageToJson := by
        simpa using filter_image_defined (i0 :: i1 :: rest2)
      have hfu : ((imageToJson i0 :: (i1 :: rest2).map imageToJson).filter
          (fun e => jsIsUndefined e)) = [] := by
        simpa using filter_image_undefined (i0 :: i1 :: rest2)
      have hlen : ¬ (((i0 :: i1 :: rest2).map imageToJson).length ≤ 1) := by
        simp
      rw [show (i0 :: i1 :: rest2).map imageToJson
          = imageToJson i0 :: (i1 :: rest2).map imageToJson from rfl]
      rw [pickImage]
      rw [hfd, hfu]
      rw [if_neg hlen]
      rw [show (imageToJson i0 :: (i1 :: rest2).map imageToJson)
          = (i0 :: i1 :: rest2).map imageToJson from rfl]
      rw [mapM_imgSortKey]
      simp only [exceptBind_ok, List.append_nil]
      have hh := sortK_keyed_head (i0 :: i1 :: rest2) m hm
      cases hs : sortK pairKeyLE ((i0 :: i1 :: rest2).map
          (fun im => (imageToJson im, some (imgDiff im)))) with
      | nil =>
        rw [hs] at hh
        simp at hh
      | cons p t =>
        rw [hs] at hh
        have hp : p = (imageToJson m, some (imgDiff m)) := by simpa using hh
        subst hp
        by_cases hu : m.url = ""
        · simp only [List.map_cons, List.headD, jsOptGet, imageToJson, jsObjFind]
          simp [jsTruthy, hu, jsGet, jsObjFind, List.headD]
          by_cases h0 : i0.url = "" <;> simp [h0]
        · simp only [List.map_cons, List.headD, jsOptGet, imageToJson, jsObjFind]
          simp [jsTruthy, hu]

/-- C8 counterexample: the claim says pickImage never throws on any input
and always returns the url of a minimal |width - height| image.  On the
code, an array containing a null element throws (images[0].url on null is a
TypeError surfacing as the generic failure), and when the unique most-square
image has an empty url the code falls back to the FIRST image's url, which
does not have minimal |width - height|. -/
theorem pickImage_cex :
    pickImage (.arr [Json.null]) = .error () ∧
    imgDiff ⟨"", 5, 5⟩ < imgDiff ⟨"x", 0, 10⟩ ∧
    pickImage (.arr [imageToJson ⟨"x", 0, 10⟩, imageToJson ⟨"", 5, 5⟩])
      = .ok (.str "x") := by
  refine ⟨rfl, ?_, ?_⟩
  · show |(5 : Rat) - 5| < |(0 : Rat) - 10|
    norm_num
  · have hm : firstMinBy (fun a b => decide (imgDiff a ≤ imgDiff b))
        [(⟨"x", 0, 10⟩ : ImagePayload), ⟨"", 5, 5⟩] = some ⟨"", 5, 5⟩ := by
      have hle : decide (imgDiff (⟨"x", 0, 10⟩ : ImagePayload)
          ≤ imgDiff (⟨"", 5, 5⟩ : ImagePayload)) = false := by
        have habs : ¬ (|(0 : Rat) - 10| ≤ |(5 : Rat) - 5|) := by norm_num
        simp [imgDiff, habs]
      simp [firstMinBy, hle]
    have heval := pickImage_eval [⟨"x", 0, 10⟩, ⟨"", 5, 5⟩] ⟨"", 5, 5⟩ hm
    simp at heval
    exact heval

/-- C8 amended: on a non-empty array of image records the result of
pickImage is determined by the FIRST image m of minimal |width - height|
(stable tie-breaking): when the url of m is non-empty it is returned; when
it is empty the code falls back to the first image's url (rather than
returning the minimal image's empty url).  An empty or missing array yields
the empty string.  pickImage never throws on arrays of image records, but
it can throw on arrays with null elements. -/
theorem pickImage_squarest_amended :
    (∀ (l : List ImagePayload), l ≠ [] →
      ∃ l1 m l2, l = l1 ++ m :: l2 ∧
        (∀ x ∈ l, imgDiff m ≤ imgDiff x) ∧
        (∀ x ∈ l1, imgDiff m < imgDiff x) ∧
        (m.url ≠ "" → pickImage (.arr (l.map imageToJson)) = .ok (.str m.url)) ∧
        (m.url = "" → pickImage (.arr (l.map imageToJson)) = .ok (.str (l.headD m).url))) ∧
    pickImage (.arr []) = .ok (.str "") ∧
    pickImage .undefined = .ok (.str "") := by
  refine ⟨?_, rfl, rfl⟩
  intro l hne
  cases h : firstMinBy (fun a b => decide (imgDiff a ≤ imgDiff b)) l with
  | none => exact absurd ((firstMinBy_none _ _).mp h) hne
  | some m =>
    obtain ⟨l1, l2, hsplit, hfirst⟩ := firstMinBy_first imgDiff l m h
    refine ⟨l1, m, l2, hsplit, firstMinBy_min imgDiff l m h, hfirst, ?_, ?_⟩
    · intro hu
      rw [pickImage_eval l m h, if_neg hu]
    · intro hu
      rw [pickImage_eval l m h, if_pos hu]

/-- C8 amended witness: the specification example; both image records carry
a url, the most-square one ("a", 100x100) is selected. -/
theorem pickImage_squarest_amended_witness :
    ∃ l1 m l2,
      ([(⟨"a", 100, 100⟩ : ImagePayload), ⟨"b", 50, 10⟩] : List ImagePayload)
        = l1 ++ m :: l2 ∧
      (∀ x ∈ ([(⟨"a", 100, 100⟩ : ImagePayload), ⟨"b", 50, 10⟩] : List ImagePayload),
        imgDiff m ≤ imgDiff x) ∧
      (∀ x ∈ l1, imgDiff m < imgDiff x) ∧
      (m.url ≠ "" → pickImage (.arr ([(⟨"a", 100, 100⟩ : ImagePayload),
        ⟨"b", 50, 10⟩].map imageToJson)) = .ok (.str m.url)) ∧
      (m.url = "" → pickImage (.arr ([(⟨"a", 100, 100⟩ : ImagePayload),
        ⟨"b", 50, 10⟩].map imageToJson)) = .ok (.str ([(⟨"a", 100, 100⟩ : ImagePayload),
        ⟨"b", 50, 10⟩].headD m).url)) :=
  pickImage_squarest_amended.1 [⟨"a", 100, 100⟩, ⟨"b", 50, 10⟩] (List.cons_ne_nil _ _)

/-! Event payload model used to state the C2 claim: every leaf the two
normalizers read is optional.  A missing leaf is embedded as an explicitly
undefined property, which every access the router performs treats exactly
like an absent one. -/

def oStr : Option String → Json
  | none => .undefined
  | some s => .str s

def oNum : Option Rat → Json
  | none => .undefined
  | some q => .num q

def oArr (f : α → Json) : Option (List α) → Json
  | none => .undefined
  | some l => .arr (l.map f)

structure AttractionPayload where
  name : Option String
  url : Option String

structure VenuePayload where
  name : Option String
  line1 : Option String
  city : Option String
  stateCode : Option String
  postalCode : Option String

structure ClassificationPayload where
  segment : Option String
  genre : Option String
  subGenre : Option String

structure PriceRangePayload where
  min : Option Rat
  max : Option Rat

structure EventPayload where
  id : Option String
  name : Option String
  localDate : Option String
  localTime : Option String
  statusCode : Option String
  url : Option String
  seatmap : Option String
  images : Option (List ImagePayload)
  classifications : Option (List ClassificationPayload)
  venues : Option (List VenuePayload)
  attractions : Option (List AttractionPayload)
  priceRanges : Option (List PriceRangePayload)

def attrToJson (a : AttractionPayload) : Json :=
  .obj [("name", oStr a.name), ("url", oStr a.url)]

def venueToJson (v : VenuePayload) : Json :=
  .obj [("name", oStr v.name), ("address", .obj [("line1", oStr v.line1)]),
        ("city", .obj [("name", oStr v.city)]),
        ("state", .obj [("stateCode", oStr v.stateCode)]),
        ("postalCode", oStr v.postalCode)]

def classToJson (c : ClassificationPayload) : Json :=
  .obj [("segment", .obj [("name", oStr c.segment)]),
        ("genre", .obj [("name", oStr c.genre)]),
        ("subGenre", .obj [("name", oStr c.subGenre)])]

def priceToJson (p : PriceRangePayload) : Json :=
  .obj [("min", oNum p.min), ("max", oNum p.max)]

def eventToJson (e : EventPayload) : Json :=
  .obj [
    ("id", oStr e.id),
    ("name", oStr e.name),
    ("dates", .obj [
      ("start", .obj [("localDate", oStr e.localDate), ("localTime", oStr e.localTime)]),
      ("status", .obj [("code", oStr e.statusCode)])]),
    ("images", oArr imageToJson e.images),
    ("classifications", oArr classToJson e.classifications),
    ("_embedded", .obj [("venues", oArr venueToJson e.venues),
                        ("attractions", oArr attrToJson e.attractions)]),
    ("url", oStr e.url),
    ("seatmap", .obj [("staticUrl", oStr e.seatmap)]),
    ("priceRanges", oArr priceToJson e.priceRanges)]

/-- Name of the first embedded venue after the ?? default. -/
def headVenueName : Option (List VenuePayload) → String
  | some (v :: _) => v.name.getD ""
  | _ => ""

@[simp] theorem jsCoalesce_oStr (o : Option String) :
    jsCoalesce (oStr o) (.str "") = .str (o.getD "") := by
  cases o <;> rfl

theorem venue_name_field (vs : Option (List VenuePayload)) :
    jsCoalesce (jsOptGet (jsOptIdx (oArr venueToJson vs) 0) "name") (.str "")
      = .str (headVenueName vs) := by
  match vs with
  | none => rfl
  | some [] => rfl
  | some (v :: rest) =>
    show jsCoalesce (oStr v.name) (.str "") = .str (headVenueName (some (v :: rest)))
    cases h : v.name <;> simp [headVenueName, h]

theorem jsOr_oArr (f : α → Json) (o : Option (List α)) :
    jsOr (oArr f o) (.arr []) = .arr ((o.getD []).map f) := by
  cases o <;> rfl

theorem attrs_mapM (l : List AttractionPayload) :
    (l.map attrToJson).mapM (fun a => do
      let n ← jsGet a "name"
      let u ← jsGet a "url"
      Except.ok (Json.obj [("name", n), ("url", u)])) = .ok (l.map attrToJson) := by
  rw [← List.mapM'_eq_mapM]
  induction l with
  | nil => rfl
  | cons x xs ih => simp [List.mapM', ih]; rfl

theorem tsc_oStr (o : Option String) : ∃ c, ticketStatusColor (oStr o) = .ok c := by
  cases o with
  | none => exact ⟨"gray", rfl⟩
  | some s =>
    by_cases hs : s = ""
    · subst hs
      exact ⟨"gray", rfl⟩
    · have hor : jsOr (.str s) (.str "") = .str s := by simp [jsOr, jsTruthy, hs]
      simp only [oStr, ticketStatusColor, hor]
      exact ⟨_, rfl⟩

theorem pickImage_oArr (o : Option (List ImagePayload)) :
    ∃ s, pickImage (oArr imageToJson o) = .ok (.str s) := by
  cases o with
  | none => exact ⟨"", rfl⟩
  | some l =>
    cases l with
    | nil => exact ⟨"", rfl⟩
    | cons i0 rest =>
      cases h : firstMinBy (fun a b => decide (imgDiff a ≤ imgDiff b)) (i0 :: rest) with
      | none => exact absurd ((firstMinBy_none _ _).mp h) (List.cons_ne_nil _ _)
      | some m => exact ⟨_, pickImage_eval (i0 :: rest) m h⟩

/-- C2 counterexample: the claim says every field of a produced row/detail is
never null or undefined and that id is non-empty whenever a row is produced.
On the code, id is copied verbatim with no default: an event payload without
an id produces a row whose id is undefined, and an embedded attraction
without name/url produces an artists entry with undefined name and url. -/
theorem normalizer_defaults_cex :
    normEventRow (.obj []) = .ok (.obj [
      ("id", Json.undefined), ("name", .str ""), ("dateLocal", .str ""),
      ("imageUrl", .str ""), ("genre", .str ""), ("venue", .str "")]) ∧
    detailsOf (.obj [("_embedded", .obj [("attractions", .arr [.obj []])])])
      = .ok (.obj [
        ("id", Json.undefined), ("name", .str ""), ("dateLocal", .str ""),
        ("timeLocal", .str ""),
        ("artists", .arr [.obj [("name", Json.undefined), ("url", Json.undefined)]]),
        ("venue", .str ""), ("address", .str ""), ("ticketStatus", .str ""),
        ("ticketStatusColor", .str "gray"), ("buyTicketAt", .str ""),
        ("seatmap", .str ""), ("priceRange", .str ""), ("genre", .str "")]) :=
  ⟨rfl, rfl⟩

/-- C2 amended: for every event payload in the optional-leaf family (any
combination of missing id, name, nested date/venue paths, image list,
classification list, attraction name/url fields, price ranges), both
normalizers succeed - no absent nested path causes a runtime failure - and
every field except two has its empty-string default and is a string, never
null or undefined.  The exceptions: id is copied VERBATIM (undefined when
the upstream id is missing, and empty only when upstream sends an empty
id), and artists entries copy attraction name/url verbatim (undefined when
missing). -/
theorem normalizer_field_defaults_amended (p : EventPayload) :
    (∃ sImg, normEventRow (eventToJson p) = .ok (.obj [
      ("id", oStr p.id),
      ("name", .str (p.name.getD "")),
      ("dateLocal", .str (p.localDate.getD "")),
      ("imageUrl", .str sImg),
      ("genre", .str (pickGenre (oArr classToJson p.classifications))),
      ("venue", .str (headVenueName p.venues))])) ∧
    (∃ c, detailsOf (eventToJson p) = .ok (.obj [
      ("id", oStr p.id),
      ("name", .str (p.name.getD "")),
      ("dateLocal", .str (p.localDate.getD "")),
      ("timeLocal", .str (p.localTime.getD "")),
      ("artists", .arr (((p.attractions.getD []).map attrToJson).take 5)),
      ("venue", .str (headVenueName p.venues)),
      ("address", .str (fullAddress (jsOptIdx (oArr venueToJson p.venues) 0))),
      ("ticketStatus", .str (p.statusCode.getD "")),
      ("ticketStatusColor", .str c),
      ("buyTicketAt", .str (p.url.getD "")),
      ("seatmap", .str (p.seatmap.getD "")),
      ("priceRange", .str (formatPriceRange (oArr priceToJson p.priceRanges))),
      ("genre", .str (pickGenre (oArr classToJson p.classifications)))])) := by
  have h1 : jsGet (eventToJson p) "id" = .ok (oStr p.id) := rfl
  have h2 : jsGet (eventToJson p) "name" = .ok (oStr p.name) := rfl
  have h3 : jsOptGet (eventToJson p) "images" = oArr imageToJson p.images := rfl
  have h4 : jsOptGet (jsOptGet (jsOptGet (eventToJson p) "dates") "start") "localDate"
      = oStr p.localDate := rfl
  have h5 : jsOptGet (jsOptGet (jsOptGet (eventToJson p) "dates") "start") "localTime"
      = oStr p.localTime := rfl
  have h6 : jsOptGet (eventToJson p) "classifications" = oArr classToJson p.classifications :=
    rfl
  have h7 : jsOptGet (jsOptGet (eventToJson p) "_embedded") "venues"
      = oArr venueToJson p.venues := rfl
  have h8 : jsOptGet (jsOptGet (eventToJson p) "_embedded") "attractions"
      = oArr attrToJson p.attractions := rfl
  have h9 : jsOptGet (jsOptGet (jsOptGet (eventToJson p) "dates") "status") "code"
      = oStr p.statusCode := rfl
  have h10 : jsOptGet (eventToJson p) "url" = oStr p.url := rfl
  have h11 : jsOptGet (jsOptGet (eventToJson p) "seatmap") "staticUrl" = oStr p.seatmap := rfl
  have h12 : jsOptGet (eventToJson p) "priceRanges" = oArr priceToJson p.priceRanges := rfl
  constructor
  · obtain ⟨sImg, hImg⟩ := pickImage_oArr p.images
    refine ⟨sImg, ?_⟩
    simp only [normEventRow, h1, h2, h3, h4, h6, h7, hImg, exceptBind_ok]
    simp [jsCoalesce_oStr, venue_name_field]
  · obtain ⟨c, hc⟩ := tsc_oStr p.statusCode
    refine ⟨c, ?_⟩
    simp only [detailsOf, h1, h2, h4, h5, h6, h7, h8, h9, h10, h11, h12, exceptBind_ok,
      jsOr_oArr, attrs_mapM, hc]
    simp [jsCoalesce_oStr, venue_name_field]
